import Mathlib

/-!
# CampusRentalFinder — verification of the review/moderation and search core

A shallow embedding of the rental-platform backend's core logic:

* the helpfulness-voting engine (`reviews/models.py`, `reviews/serializers.py`,
  `reviews/views.py`),
* the report-moderation workflow (`reviews/views.py`,
  `AdminReviewReportViewSet`),
* the rental search/filter composer and detail retrieval
  (`rentals/serializers.py` `RentalSearchSerializer`, `rentals/views.py`
  `RentalViewSet`).

Database rows become Lean structures, the database becomes explicit state
(lists of rows plus fresh-id counters), Django ORM queries become list
operations, and each HTTP handler becomes a function from state and request
parameters to a new state plus an `Except`-style outcome.  Python float/Decimal
arithmetic in the geo filter is modelled over exact rationals extended with an
explicit IEEE-754 underflow-to-zero step at the one site where double
underflow is observable (the `latitude / 90` quotient that feeds a
zero-divisor test); Python's `ZeroDivisionError` is an explicit `none`.
Python truthiness tests
(`if data.get(...)`, `any(...)`, `all(...)`) are modelled field-by-field:
numbers are truthy iff nonzero, strings iff nonempty, dates and typed objects
iff present.

Error outcomes are classified with the taxonomy of the specification's §7
(ValidationError / PermissionError / ConflictError / NotFoundError): each
distinct early-return of the Python handlers is mapped to the kind the
specification assigns to that failure.
-/

/-- Error kinds of the specification's §7 taxonomy. -/
inductive ErrKind where
  | ValidationError
  | PermissionError
  | ConflictError
  | NotFoundError
deriving DecidableEq, Repr

instance {ε α : Type _} [DecidableEq ε] [DecidableEq α] : DecidableEq (Except ε α) := fun x y =>
  match x, y with
  | .ok a, .ok b =>
    if h : a = b then .isTrue (by rw [h]) else .isFalse (fun hc => h (by injection hc))
  | .error a, .error b =>
    if h : a = b then .isTrue (by rw [h]) else .isFalse (fun hc => h (by injection hc))
  | .ok _, .error _ => .isFalse (fun hc => Except.noConfusion hc)
  | .error _, .ok _ => .isFalse (fun hc => Except.noConfusion hc)

/-! ## Review domain rows (`reviews/models.py`)

Only the columns read or written by the voting / reporting / moderation
handlers are carried; the remaining `Review` columns (text, sub-ratings,
dates, landlord response) are never touched by those code paths. -/

/-- A `Review` row: id, rental FK, tenant (author) FK, moderation visibility
flag, and the two cached helpfulness counters. -/
structure Review where
  id : Nat
  rental : Nat
  tenant : Nat
  is_approved : Bool
  helpful_votes : Nat
  total_votes : Nat
deriving DecidableEq, Repr

/-- A `ReviewHelpfulness` row: one user's vote on one review. -/
structure HelpfulnessVote where
  id : Nat
  review : Nat
  user : Nat
  is_helpful : Bool
deriving DecidableEq, Repr

/-- A `ReviewReport` row, including the resolution-tracking columns.
`resolved_at` is an abstract timestamp. -/
structure ReviewReport where
  id : Nat
  review : Nat
  reporter : Nat
  reason : String
  description : String
  is_resolved : Bool
  admin_action : String
  resolved_by : Option Nat
  resolved_at : Option Nat
deriving DecidableEq, Repr

/-- The review-subsystem database: the three tables plus fresh primary-key
counters for the two tables the modelled handlers insert into. -/
structure ReviewsState where
  reviews : List Review
  votes : List HelpfulnessVote
  reports : List ReviewReport
  nextVoteId : Nat
  nextReportId : Nat
deriving DecidableEq, Repr

/-- The valid `ReviewReport.reason` choices (`REPORT_REASONS`). -/
def reportReasons : List String :=
  ["spam", "inappropriate", "offensive", "personal", "irrelevant", "false", "other"]

/-- Votes belonging to review `rid` (`review.helpfulness_votes.count()`). -/
def votesFor (votes : List HelpfulnessVote) (rid : Nat) : List HelpfulnessVote :=
  votes.filter (fun v => v.review == rid)

/-- Votes on review `rid` with `is_helpful=True`
(`review.helpfulness_votes.filter(is_helpful=True).count()`). -/
def helpfulVotesFor (votes : List HelpfulnessVote) (rid : Nat) : List HelpfulnessVote :=
  votes.filter (fun v => v.review == rid && v.is_helpful)

/-- `update_review_helpfulness_on_save` (post-save signal on
`ReviewHelpfulness`): only when the vote row was newly `created` does it
recount the review's counters from the live vote set; for an in-place update
(`created=False`) it does nothing.  The recount runs after the vote row is
already persisted, so it is applied to the post-save state. -/
def update_review_helpfulness_on_save (s : ReviewsState) (vote : HelpfulnessVote)
    (created : Bool) : ReviewsState :=
  if created then
    let helpful_count := (helpfulVotesFor s.votes vote.review).length
    let total_count := (votesFor s.votes vote.review).length
    { s with reviews := s.reviews.map (fun r =>
        if r.id == vote.review then
          { r with helpful_votes := helpful_count, total_votes := total_count }
        else r) }
  else s

/-- `update_review_helpfulness_on_delete` (post-delete signal on
`ReviewHelpfulness`): unconditionally recounts both counters from the
remaining vote set. -/
def update_review_helpfulness_on_delete (s : ReviewsState) (vote : HelpfulnessVote) :
    ReviewsState :=
  let helpful_count := (helpfulVotesFor s.votes vote.review).length
  let total_count := (votesFor s.votes vote.review).length
  { s with reviews := s.reviews.map (fun r =>
      if r.id == vote.review then
        { r with helpful_votes := helpful_count, total_votes := total_count }
      else r) }

/-- Auxiliary for `pyStrip`: drop leading whitespace characters. -/
def dropLeadingWS : List Char → List Char
  | [] => []
  | c :: cs => if c.isWhitespace then dropLeadingWS cs else c :: cs

/-- Python `str.strip()`: remove leading and trailing whitespace. -/
def pyStrip (s : String) : String :=
  String.mk ((dropLeadingWS ((dropLeadingWS s.toList).reverse)).reverse)

/-- The row predicate of `ReviewHelpfulness.objects.filter(review=..., user=...)`. -/
def pairVote (rid uid : Nat) (v : HelpfulnessVote) : Bool :=
  v.review == rid && v.user == uid

/-- `ReviewHelpfulnessSerializer.create`: upsert of a helpfulness vote.  If a
vote by this user on this review exists, overwrite its `is_helpful` in place
(row update by primary key, which fires the post-save signal with
`created=False`); otherwise insert a fresh row (signal fires with
`created=True`).  Returns the new state and the saved vote row. -/
def reviewHelpfulnessCreate (s : ReviewsState) (rid uid : Nat) (b : Bool) :
    ReviewsState × HelpfulnessVote :=
  match s.votes.find? (pairVote rid uid) with
  | some existing =>
    let updated := { existing with is_helpful := b }
    let s1 := { s with votes := s.votes.map (fun v => if v.id == existing.id then updated else v) }
    (update_review_helpfulness_on_save s1 updated false, updated)
  | none =>
    let newVote : HelpfulnessVote := { id := s.nextVoteId, review := rid, user := uid, is_helpful := b }
    let s1 := { s with votes := s.votes ++ [newVote], nextVoteId := s.nextVoteId + 1 }
    (update_review_helpfulness_on_save s1 newVote true, newVote)

/-- `ReviewViewSet.get_object` resolves the pk against the viewset queryset,
which is filtered to `is_approved=True` reviews. -/
def viewFindReview (s : ReviewsState) (rid : Nat) : Option Review :=
  (s.reviews.filter (fun r => r.is_approved)).find? (fun r => r.id == rid)

/-- The payload of a successful `vote_helpfulness` response: the saved vote's
value and the counters serialized from the in-memory `review` object. -/
structure VoteResult where
  is_helpful : Bool
  helpful_votes : Nat
  total_votes : Nat
deriving DecidableEq, Repr

/-- `ReviewViewSet.vote_helpfulness`: fetch the review, reject a self-vote
(spec kind: PermissionError), otherwise upsert the vote through the
serializer.  The response echoes `review.helpful_votes` / `review.total_votes`
from the review object fetched before the vote was applied (the signal's
`.update(...)` does not refresh that in-memory object). -/
def vote_helpfulness (s : ReviewsState) (rid uid : Nat) (b : Bool) :
    ReviewsState × Except ErrKind VoteResult :=
  match viewFindReview s rid with
  | none => (s, .error .NotFoundError)
  | some review =>
    if review.tenant == uid then
      (s, .error .PermissionError)
    else
      let res := reviewHelpfulnessCreate s rid uid b
      (res.1, .ok { is_helpful := res.2.is_helpful,
                    helpful_votes := review.helpful_votes,
                    total_votes := review.total_votes })

/-- `ReviewViewSet.report` plus `ReviewReportSerializer`: fetch the review,
reject a self-report (spec kind: PermissionError); field validation rejects an
unknown reason choice and a nonempty description shorter than 10 characters
after stripping (ValidationError); a duplicate report by the same reporter is
rejected (spec kind: ConflictError); otherwise a fresh report row is
inserted in the `open` state. -/
def reportReview (s : ReviewsState) (rid uid : Nat) (reason description : String) :
    ReviewsState × Except ErrKind Unit :=
  match viewFindReview s rid with
  | none => (s, .error .NotFoundError)
  | some review =>
    if review.tenant == uid then
      (s, .error .PermissionError)
    else if !(reportReasons.contains reason) then
      (s, .error .ValidationError)
    else if description != "" && (pyStrip description).length < 10 then
      (s, .error .ValidationError)
    else if s.reports.any (fun p => p.review == rid && p.reporter == uid) then
      (s, .error .ConflictError)
    else
      let newReport : ReviewReport :=
        { id := s.nextReportId, review := rid, reporter := uid,
          reason := reason, description := description,
          is_resolved := false, admin_action := "",
          resolved_by := none, resolved_at := none }
      ({ s with reports := s.reports ++ [newReport], nextReportId := s.nextReportId + 1 },
       .ok ())

/-- `AdminReviewReportViewSet.get_object`: report lookup by pk over all
reports. -/
def findReport (s : ReviewsState) (pid : Nat) : Option ReviewReport :=
  s.reports.find? (fun p => p.id == pid)

/-- `AdminReviewReportViewSet.resolve`: reject if the report is already
resolved/dismissed (spec kind: ConflictError); reject an action note that is
empty after stripping (ValidationError); otherwise set `is_resolved`, the
note, the acting admin and the timestamp together in one row update. -/
def resolveReport (s : ReviewsState) (pid adminId : Nat) (admin_action : String) (now : Nat) :
    ReviewsState × Except ErrKind Unit :=
  match findReport s pid with
  | none => (s, .error .NotFoundError)
  | some report =>
    if report.is_resolved then
      (s, .error .ConflictError)
    else if pyStrip admin_action == "" then
      (s, .error .ValidationError)
    else
      let updated :=
        { report with
          is_resolved := true
          admin_action := admin_action
          resolved_by := some adminId
          resolved_at := some now }
      ({ s with reports := s.reports.map (fun p => if p.id == pid then updated else p) },
       .ok ())

/-- The fixed system note written by `dismiss`. -/
def dismissNote : String := "Report dismissed - no action required"

/-- `AdminReviewReportViewSet.dismiss`: unconditionally marks the report
resolved with the fixed system note, the acting admin and the timestamp.
Unlike `resolve`, the handler performs no `is_resolved` check before
mutating. -/
def dismissReport (s : ReviewsState) (pid adminId : Nat) (now : Nat) :
    ReviewsState × Except ErrKind Unit :=
  match findReport s pid with
  | none => (s, .error .NotFoundError)
  | some report =>
    let updated :=
      { report with
        is_resolved := true
        admin_action := dismissNote
        resolved_by := some adminId
        resolved_at := some now }
    ({ s with reports := s.reports.map (fun p => if p.id == pid then updated else p) },
     .ok ())

/-! ## Rental listing domain (`rentals/models.py`, `rentals/serializers.py`,
`rentals/views.py`)

The search composer works over `ℚ` in place of Python float/Decimal; the only
arithmetic in scope is comparison, subtraction and division, and the one
division whose divisor can vanish is modelled through `pydiv` so that a
Python `ZeroDivisionError` is a visible `none`. -/

/-- `Rental.status` choices. -/
inductive RentalStatus where
  | available
  | rented
  | pending
  | maintenance
  | inactive
deriving DecidableEq, Repr

/-- A `Rental` row, restricted to the columns the search composer and the
detail view read or write.  `available_from` and `created_at` are abstract
day / timestamp numbers. -/
structure Rental where
  id : Nat
  landlord : Nat
  title : String
  description : String
  address : String
  city : String
  state : String
  property_type : String
  price : ℚ
  bedrooms : Nat
  bathrooms : Nat
  pets_allowed : Bool
  parking_available : Bool
  furnishing_status : String
  utilities_included : Bool
  shuttle_service : Bool
  distance_to_campus : ℚ
  available_from : Nat
  latitude : ℚ
  longitude : ℚ
  status : RentalStatus
  views_count : Nat
  created_at : Nat
deriving DecidableEq, Repr

/-- The sort keys accepted by `RentalSearchSerializer.ordering`
(`created_at`, `-created_at`, `price`, `-price`, `distance_to_campus`,
`-views_count`). -/
inductive OrderKey where
  | created_at
  | created_at_desc
  | price
  | price_desc
  | distance_to_campus
  | views_count_desc
deriving DecidableEq, Repr

/-- The flat query-parameter bag recognized by `RentalSearchSerializer`,
already typed (DRF field parsing is the collaborator that produced these
values; unrecognized keys are dropped before this point). -/
structure SearchParams where
  query : Option String := none
  city : Option String := none
  state : Option String := none
  property_type : Option String := none
  min_price : Option ℚ := none
  max_price : Option ℚ := none
  bedrooms : Option Nat := none
  bathrooms : Option Nat := none
  pets_allowed : Option Bool := none
  parking_available : Option Bool := none
  furnishing_status : Option String := none
  utilities_included : Option Bool := none
  max_distance_to_campus : Option ℚ := none
  shuttle_service : Option Bool := none
  available_from : Option Nat := none
  latitude : Option ℚ := none
  longitude : Option ℚ := none
  radius : Option ℚ := none
  ordering : Option OrderKey := none
deriving DecidableEq, Repr

/-- Python truthiness of an optional number: absent and zero are falsy. -/
def truthyQ : Option ℚ → Bool
  | none => false
  | some v => decide (v ≠ 0)

/-- Python truthiness of an optional string: absent and empty are falsy. -/
def truthyStr : Option String → Bool
  | none => false
  | some s => decide (s ≠ "")

/-- Python truthiness of an optional `int`: absent and zero are falsy. -/
def truthyNat : Option Nat → Bool
  | none => false
  | some n => decide (n ≠ 0)

/-- Python truthiness of an optional bool. -/
def truthyBool : Option Bool → Bool
  | none => false
  | some b => b

/-- `Rental.PROPERTY_TYPES` choice values. -/
def propertyTypeChoices : List String :=
  ["apartment", "house", "condo", "townhouse", "studio", "room", "other"]

/-- `Rental.FURNISHING_STATUS` choice values. -/
def furnishingChoices : List String :=
  ["furnished", "semi_furnished", "unfurnished"]

/-- DRF field-level validation of `RentalSearchSerializer`: choice fields must
name a valid choice, `bathrooms ≥ 1`, `max_distance_to_campus ≥ 0`,
`latitude ∈ [-90, 90]`, `longitude ∈ [-180, 180]`, `radius ∈ [0.1, 50]`. -/
def searchFieldsOk (p : SearchParams) : Bool :=
  (match p.property_type with | some t => propertyTypeChoices.contains t | none => true) &&
  (match p.furnishing_status with | some t => furnishingChoices.contains t | none => true) &&
  (match p.bathrooms with | some n => decide (1 ≤ n) | none => true) &&
  (match p.max_distance_to_campus with | some v => decide (0 ≤ v) | none => true) &&
  (match p.latitude with | some v => decide (-90 ≤ v) && decide (v ≤ 90) | none => true) &&
  (match p.longitude with | some v => decide (-180 ≤ v) && decide (v ≤ 180) | none => true) &&
  (match p.radius with | some v => decide (mkRat 1 10 ≤ v) && decide (v ≤ 50) | none => true)

/-- `RentalSearchSerializer.validate`: rejects `min_price > max_price` when
both are truthy, and rejects a truthy-but-incomplete latitude/longitude/radius
triple (`any(...)` without `all(...)`, under Python truthiness, so a zero
coordinate counts as absent). -/
def searchValidateOk (p : SearchParams) : Bool :=
  !(truthyQ p.min_price && truthyQ p.max_price &&
    decide (p.min_price.getD 0 > p.max_price.getD 0)) &&
  !((truthyQ p.latitude || truthyQ p.longitude || truthyQ p.radius) &&
    !(truthyQ p.latitude && truthyQ p.longitude && truthyQ p.radius))

/-- `serializer.is_valid()` for the search serializer: field-level validation
plus the object-level `validate`. -/
def searchIsValid (p : SearchParams) : Bool :=
  searchFieldsOk p && searchValidateOk p

/-- Running the search serializer standalone: invalid input surfaces as a
ValidationError kind. -/
def runSearchValidation (p : SearchParams) : Except ErrKind SearchParams :=
  if searchIsValid p then .ok p else .error .ValidationError

/-- Substring test on character lists (auxiliary for `icontains`). -/
def charsContain (hay needle : List Char) : Bool :=
  needle.isPrefixOf hay ||
    match hay with
    | [] => false
    | _ :: t => charsContain t needle

/-- Django `icontains`: case-insensitive substring test. -/
def icontains (hay needle : String) : Bool :=
  charsContain hay.toLower.toList needle.toLower.toList

/-- The viewset base queryset filter: `status__in=['available', 'rented']`. -/
def rentalVisible (r : Rental) : Bool :=
  r.status == .available || r.status == .rented

/-- Comparison function realizing `order_by` for each accepted sort key. -/
def ordLe : OrderKey → Rental → Rental → Bool
  | .created_at, a, b => decide (a.created_at ≤ b.created_at)
  | .created_at_desc, a, b => decide (b.created_at ≤ a.created_at)
  | .price, a, b => decide (a.price ≤ b.price)
  | .price_desc, a, b => decide (b.price ≤ a.price)
  | .distance_to_campus, a, b => decide (a.distance_to_campus ≤ b.distance_to_campus)
  | .views_count_desc, a, b => decide (b.views_count ≤ a.views_count)

/-- Stable insertion into a sorted list (auxiliary for `sortByLe`). -/
def insertLe (le : Rental → Rental → Bool) (x : Rental) : List Rental → List Rental
  | [] => [x]
  | y :: ys => if le x y then x :: y :: ys else y :: insertLe le x ys

/-- Stable insertion sort realizing a SQL `ORDER BY` on one key. -/
def sortByLe (le : Rental → Rental → Bool) : List Rental → List Rental
  | [] => []
  | x :: xs => insertLe le x (sortByLe le xs)

/-- Exact product of two rationals computed on numerators and denominators
(kernel-evaluable; Batteries marks `Rat.mul` irreducible). -/
def ratMul (a b : ℚ) : ℚ := mkRat (a.num * b.num) (a.den * b.den)

/-- Exact quotient of two rationals computed on numerators and denominators
(a zero divisor yields 0; every caller guards it). -/
def ratDiv (a b : ℚ) : ℚ :=
  if b.num < 0 then mkRat (-(a.num * (b.den : Int))) (a.den * b.num.natAbs)
  else mkRat (a.num * (b.den : Int)) (a.den * b.num.natAbs)

/-- Exact absolute value computed on the numerator. -/
def ratAbs (q : ℚ) : ℚ := mkRat (q.num.natAbs : Int) q.den

/-- IEEE-754 double underflow test: under round-to-nearest-even, every real of
magnitude at most 2^-1075 rounds to zero (exactly 2^-1075 ties between 0 and
the smallest subnormal 2^-1074 and resolves to the even candidate 0), and
every greater magnitude rounds to a nonzero double. -/
def underflowsToZero (q : ℚ) : Bool :=
  q.num.natAbs * 2 ^ 1075 ≤ q.den

/-- The IEEE underflow step applied to the exact rational result of a float
operation: magnitudes at most 2^-1075 flush to 0.0.  Rounding of non-tiny
values is not modelled: it can never turn a nonzero result into an exact zero
or an exact zero into a nonzero one, which is the only distinction the
downstream zero-divisor test observes. -/
def roundTiny (q : ℚ) : ℚ :=
  if underflowsToZero q then 0 else q

/-- Python float division: raises `ZeroDivisionError` (here: `none`) on an
exact-zero divisor, otherwise the exact quotient with the IEEE underflow step
applied. -/
def pyFloatDiv (a b : ℚ) : Option ℚ :=
  if b = 0 then none else some (roundTiny (ratDiv a b))

/-- The non-geo filter chain of `RentalViewSet.get_queryset`, in source order.
Each guard reproduces the handler's Python truthiness / presence test. -/
def applyBasicFilters (qs : List Rental) (p : SearchParams) : List Rental :=
  let qs := if truthyStr p.query then
      let q := p.query.getD ""
      qs.filter (fun r => icontains r.title q || icontains r.description q ||
                          icontains r.address q || icontains r.city q)
    else qs
  let qs := if truthyStr p.city then qs.filter (fun r => icontains r.city (p.city.getD "")) else qs
  let qs := if truthyStr p.state then qs.filter (fun r => icontains r.state (p.state.getD "")) else qs
  let qs := if truthyStr p.property_type then
      qs.filter (fun r => r.property_type == p.property_type.getD "") else qs
  let qs := if truthyQ p.min_price then
      qs.filter (fun r => decide (r.price ≥ p.min_price.getD 0)) else qs
  let qs := if truthyQ p.max_price then
      qs.filter (fun r => decide (r.price ≤ p.max_price.getD 0)) else qs
  let qs := match p.bedrooms with
    | some n => qs.filter (fun r => r.bedrooms == n)
    | none => qs
  let qs := if truthyNat p.bathrooms then
      qs.filter (fun r => decide (r.bathrooms ≥ p.bathrooms.getD 0)) else qs
  let qs := if truthyBool p.pets_allowed then qs.filter (fun r => r.pets_allowed) else qs
  let qs := if truthyBool p.parking_available then qs.filter (fun r => r.parking_available) else qs
  let qs := if truthyStr p.furnishing_status then
      qs.filter (fun r => r.furnishing_status == p.furnishing_status.getD "") else qs
  let qs := if truthyBool p.utilities_included then qs.filter (fun r => r.utilities_included) else qs
  let qs := if truthyBool p.shuttle_service then qs.filter (fun r => r.shuttle_service) else qs
  let qs := if truthyQ p.max_distance_to_campus then
      qs.filter (fun r => decide (r.distance_to_campus ≤ p.max_distance_to_campus.getD 0)) else qs
  let qs := match p.available_from with
    | some d => qs.filter (fun r => decide (r.available_from ≤ d))
    | none => qs
  qs

/-- The effective sort key: `validated_data['ordering']` always carries the
serializer default `-created_at` when the parameter is absent, and the
handler's truthiness test on the nonempty choice string always passes. -/
def effectiveOrdering (p : SearchParams) : OrderKey :=
  p.ordering.getD .created_at_desc

/-- The listing a request sees when the filter block is skipped: the base
queryset (`status__in=['available','rented']`) in the default newest-first
order. -/
def defaultListing (store : List Rental) : List Rental :=
  sortByLe (ordLe .created_at_desc) (store.filter rentalVisible)

/-- `RentalViewSet.get_queryset`: if the search serializer validates, apply
the filter chain, the bounding-box geo filter (guarded by Python truthiness of
all three of latitude/longitude/radius) and the requested ordering; if it does
not validate, the whole block is skipped and the base queryset is returned in
default order.  `none` models an uncaught `ZeroDivisionError` in the
longitude-delta expression `radius / (69 * abs(lat / 90))`: the inner
`lat / 90` is a float division by the nonzero literal 90 whose quotient can
underflow to 0.0 for denormal-small latitudes, after which the outer division
raises. -/
def getQueryset (store : List Rental) (p : SearchParams) : Option (List Rental) :=
  if searchIsValid p then
    let qs := applyBasicFilters (store.filter rentalVisible) p
    if truthyQ p.latitude && truthyQ p.longitude && truthyQ p.radius then
      let lat := p.latitude.getD 0
      let lon := p.longitude.getD 0
      let radius := p.radius.getD 0
      let lat_delta := roundTiny (ratDiv radius 69)
      match pyFloatDiv radius (ratMul 69 (ratAbs (roundTiny (ratDiv lat 90)))) with
      | none => none
      | some lon_delta =>
        some (sortByLe (ordLe (effectiveOrdering p)) (qs.filter (fun r =>
          decide (lat - lat_delta ≤ r.latitude) && decide (r.latitude ≤ lat + lat_delta) &&
          decide (lon - lon_delta ≤ r.longitude) && decide (r.longitude ≤ lon + lon_delta))))
    else
      some (sortByLe (ordLe (effectiveOrdering p)) qs)
  else
    some (defaultListing store)

/-- `RentalViewSet.get_object` for the detail route: pk lookup against the
status-filtered base queryset. -/
def findRental (store : List Rental) (rid : Nat) : Option Rental :=
  (store.filter rentalVisible).find? (fun r => r.id == rid)

/-- `Rental.increment_views`: an atomic row update adding one to
`views_count` of the rental with this pk, touching no other column
(`save(update_fields=['views_count'])`). -/
def increment_views (store : List Rental) (rid : Nat) : List Rental :=
  store.map (fun x => if x.id == rid then { x with views_count := x.views_count + 1 } else x)

/-- `request.user.is_authenticated and request.user == rental.landlord`:
anonymous requesters (`none`) never count as the landlord. -/
def requesterIsLandlord (requester : Option Nat) (landlordId : Nat) : Bool :=
  match requester with
  | some u => u == landlordId
  | none => false

/-- `RentalViewSet.retrieve`: fetch the rental; unless the requester is an
authenticated user equal to the rental's landlord, increment its view
counter; serialize the fetched rental.  `requester = none` is an anonymous
request. -/
def rentalRetrieve (store : List Rental) (requester : Option Nat) (rid : Nat) :
    List Rental × Except ErrKind Rental :=
  match findRental store rid with
  | none => (store, .error .NotFoundError)
  | some rental =>
    if requesterIsLandlord requester rental.landlord then
      (store, .ok rental)
    else
      (increment_views store rental.id, .ok rental)

/-! ## Sample rows used by concrete witnesses and counterexamples -/

/-- An approved review by tenant 1 with fresh counters. -/
def sampleReview : Review :=
  { id := 1, rental := 1, tenant := 1, is_approved := true, helpful_votes := 0, total_votes := 0 }

/-- A review database holding only `sampleReview`. -/
def sampleReviewState : ReviewsState :=
  { reviews := [sampleReview], votes := [], reports := [], nextVoteId := 1, nextReportId := 1 }

/-- A report that has already been resolved by admin 5. -/
def sampleResolvedReport : ReviewReport :=
  { id := 1, review := 1, reporter := 2, reason := "spam", description := "",
    is_resolved := true, admin_action := "Removed the review", resolved_by := some 5,
    resolved_at := some 50 }

/-- A still-open report by user 3. -/
def sampleOpenReport : ReviewReport :=
  { id := 2, review := 1, reporter := 3, reason := "offensive", description := "",
    is_resolved := false, admin_action := "", resolved_by := none, resolved_at := none }

/-- A review database with one resolved and one open report. -/
def sampleReportState : ReviewsState :=
  { reviews := [sampleReview], votes := [], reports := [sampleResolvedReport, sampleOpenReport],
    nextVoteId := 1, nextReportId := 3 }

/-- An available rental owned by landlord 7. -/
def sampleRental : Rental :=
  { id := 1, landlord := 7, title := "Cozy studio", description := "Near campus",
    address := "12 College Ave", city := "Springfield", state := "IL",
    property_type := "studio", price := 800, bedrooms := 1, bathrooms := 1,
    pets_allowed := false, parking_available := true, furnishing_status := "furnished",
    utilities_included := true, shuttle_service := false, distance_to_campus := 1,
    available_from := 0, latitude := 40, longitude := -89, status := .available,
    views_count := 0, created_at := 10 }

/-- A newer, rented rental by the same landlord. -/
def sampleRental2 : Rental :=
  { sampleRental with id := 2, created_at := 20, price := 1200, status := .rented }

/-- A listing store with two visible rentals; newest first it reads
`[sampleRental2, sampleRental]`. -/
def sampleStore : List Rental := [sampleRental, sampleRental2]

/-- Search request supplying only latitude and longitude (no radius). -/
def geoSubsetParams : SearchParams := { latitude := some 10, longitude := some 20 }

/-- Search request supplying latitude = 0 with longitude and radius, all
within the serializer's accepted field ranges. -/
def zeroLatParams : SearchParams := { latitude := some 0, longitude := some 10, radius := some 5 }

/-- Search request with an inverted price range. -/
def badPriceParams : SearchParams := { min_price := some 7, max_price := some 3 }

/-! ## Generic list lemmas about maps that preserve a predicate -/

lemma find?_map_pres {α : Type _} (g : α → α) (p : α → Bool)
    (h : ∀ x, p (g x) = p x) (l : List α) :
    (l.map g).find? p = (l.find? p).map g := by
  induction l with
  | nil => rfl
  | cons x xs ih =>
    simp only [List.map_cons, List.find?_cons, h x]
    cases p x <;> simp [ih]

lemma filter_map_pres {α : Type _} (g : α → α) (q : α → Bool)
    (h : ∀ x, q (g x) = q x) (l : List α) :
    (l.map g).filter q = (l.filter q).map g := by
  induction l with
  | nil => rfl
  | cons x xs ih =>
    simp only [List.map_cons, List.filter_cons, h x]
    cases q x <;> simp [ih]

lemma countP_map_mem {α : Type _} (g : α → α) (p : α → Bool) (l : List α)
    (h : ∀ x ∈ l, p (g x) = p x) :
    (l.map g).countP p = l.countP p := by
  induction l with
  | nil => rfl
  | cons x xs ih =>
    simp only [List.map_cons, List.countP_cons, h x (List.mem_cons_self x xs)]
    rw [ih (fun y hy => h y (List.mem_cons_of_mem x hy))]

lemma countP_eq_one_unique {α : Type _} {p : α → Bool} :
    ∀ {l : List α}, l.countP p = 1 →
      ∀ {v w : α}, v ∈ l → w ∈ l → p v = true → p w = true → v = w := by
  intro l
  induction l with
  | nil =>
    intro _ v w hv _ _ _
    cases hv
  | cons x xs ih =>
    intro h1 v w hv hw hpv hpw
    rw [List.countP_cons] at h1
    by_cases hx : p x = true
    · rw [if_pos hx] at h1
      have h0 : xs.countP p = 0 := by omega
      have hz : ∀ a ∈ xs, ¬ p a = true := List.countP_eq_zero.mp h0
      have hvx : v = x := by
        rcases List.mem_cons.mp hv with h | h
        · exact h
        · exact absurd hpv (hz v h)
      have hwx : w = x := by
        rcases List.mem_cons.mp hw with h | h
        · exact h
        · exact absurd hpw (hz w h)
      rw [hvx, hwx]
    · rw [if_neg hx] at h1
      have h1' : xs.countP p = 1 := by omega
      have hvm : v ∈ xs := by
        rcases List.mem_cons.mp hv with h | h
        · exact absurd (h ▸ hpv) hx
        · exact h
      have hwm : w ∈ xs := by
        rcases List.mem_cons.mp hw with h | h
        · exact absurd (h ▸ hpw) hx
        · exact h
      exact ih h1' hvm hwm hpv hpw

lemma exists_find?_of_countP_eq_one {α : Type _} {p : α → Bool} {l : List α}
    (h : l.countP p = 1) : ∃ a, l.find? p = some a := by
  cases hf : l.find? p with
  | some a => exact ⟨a, rfl⟩
  | none =>
    have h0 := List.countP_eq_zero.mpr (List.find?_eq_none.mp hf)
    omega

/-! ## Lookup lemmas for the embedded stores -/

lemma viewFindReview_map (s : ReviewsState) (g : Review → Review)
    (hid : ∀ r, (g r).id = r.id) (happ : ∀ r, (g r).is_approved = r.is_approved) (rid : Nat) :
    viewFindReview { s with reviews := s.reviews.map g } rid =
      (viewFindReview s rid).map g := by
  unfold viewFindReview
  dsimp only
  rw [filter_map_pres g _ (fun x => happ x), find?_map_pres g _ (fun x => by rw [hid x])]

lemma findReport_set (s : ReviewsState) (pid : Nat) (rep updated : ReviewReport)
    (hfind : findReport s pid = some rep) (hid : updated.id = rep.id) :
    findReport
        { s with reports := s.reports.map (fun q => if q.id == pid then updated else q) } pid =
      some updated := by
  unfold findReport at hfind ⊢
  have hpid' := List.find?_some hfind
  have hpid : (rep.id == pid) = true := hpid'
  have hpres : ∀ x : ReviewReport,
      ((if x.id == pid then updated else x).id == pid) = (x.id == pid) := by
    intro x
    by_cases hx : (x.id == pid) = true
    · rw [if_pos hx, hid, hpid, hx]
    · rw [if_neg hx]
  dsimp only
  rw [find?_map_pres _ _ hpres, hfind]
  have hrep : rep.id = pid := by simpa using hpid
  simp [hrep]

lemma getQueryset_invalid (store : List Rental) (p : SearchParams)
    (h : searchIsValid p = false) :
    getQueryset store p = some (defaultListing store) := by
  unfold getQueryset
  rw [h]
  simp

/-! ## Database well-formedness for the vote table

The real store guarantees primary-key uniqueness and monotone id allocation;
the list model carries that as an explicit invariant. -/

/-- Vote-table well-formedness: distinct primary keys, all below the fresh-id
counter. -/
def votesWF (s : ReviewsState) : Prop :=
  (s.votes.map (fun v => v.id)).Nodup ∧ ∀ v ∈ s.votes, v.id < s.nextVoteId

instance (s : ReviewsState) : Decidable (votesWF s) := by
  unfold votesWF; infer_instance

lemma signal_false_eq (s : ReviewsState) (v : HelpfulnessVote) :
    update_review_helpfulness_on_save s v false = s := rfl

lemma signal_votes_eq (s : ReviewsState) (v : HelpfulnessVote) (c : Bool) :
    (update_review_helpfulness_on_save s v c).votes = s.votes := by
  cases c <;> rfl

lemma signal_nextVoteId_eq (s : ReviewsState) (v : HelpfulnessVote) (c : Bool) :
    (update_review_helpfulness_on_save s v c).nextVoteId = s.nextVoteId := by
  cases c <;> rfl

/-- The counter-recount signal never removes a review from the viewset
queryset and never changes its author. -/
lemma signal_preserves_review (s : ReviewsState) (v : HelpfulnessVote) (c : Bool)
    (rid' : Nat) (r : Review) (h : viewFindReview s rid' = some r) :
    ∃ r', viewFindReview (update_review_helpfulness_on_save s v c) rid' = some r' ∧
      r'.tenant = r.tenant ∧ r'.is_approved = r.is_approved ∧ r'.id = r.id := by
  cases c with
  | false => exact ⟨r, h, rfl, rfl, rfl⟩
  | true =>
    have hstep : update_review_helpfulness_on_save s v true =
        { s with reviews := s.reviews.map (fun rv =>
            if rv.id == v.review then
              { rv with helpful_votes := (helpfulVotesFor s.votes v.review).length,
                        total_votes := (votesFor s.votes v.review).length }
            else rv) } := rfl
    rw [hstep, viewFindReview_map s _ ?hid ?happ rid', h]
    case hid =>
      intro rv
      by_cases hx : (rv.id == v.review) = true
      · rw [if_pos hx]
      · rw [if_neg hx]
    case happ =>
      intro rv
      by_cases hx : (rv.id == v.review) = true
      · rw [if_pos hx]
      · rw [if_neg hx]
    refine ⟨_, rfl, ?_, ?_, ?_⟩ <;>
      by_cases hx : (r.id == v.review) = true <;> simp [hx]

/-- The vote upsert leaves the review table's lookup intact (up to the
counter recount). -/
lemma create_preserves_review (s : ReviewsState) (rid uid : Nat) (b : Bool)
    (rid' : Nat) (r : Review) (h : viewFindReview s rid' = some r) :
    ∃ r', viewFindReview (reviewHelpfulnessCreate s rid uid b).1 rid' = some r' ∧
      r'.tenant = r.tenant ∧ r'.is_approved = r.is_approved ∧ r'.id = r.id := by
  unfold reviewHelpfulnessCreate
  cases hf : s.votes.find? (pairVote rid uid) with
  | some v0 =>
    dsimp only
    exact signal_preserves_review _ _ _ rid' r h
  | none =>
    dsimp only
    exact signal_preserves_review _ _ _ rid' r h

/-- Core behaviour of the vote upsert on a well-formed store holding at most
one vote for the (review, voter) pair: afterwards exactly one row for the
pair exists, it carries the new `is_helpful` value, and well-formedness is
preserved. -/
lemma create_spec (s : ReviewsState) (rid uid : Nat) (b : Bool)
    (hwf : votesWF s) (hle : s.votes.countP (pairVote rid uid) ≤ 1) :
    ((reviewHelpfulnessCreate s rid uid b).1).votes.countP (pairVote rid uid) = 1 ∧
    (∀ v ∈ ((reviewHelpfulnessCreate s rid uid b).1).votes,
        pairVote rid uid v = true → v.is_helpful = b) ∧
    votesWF (reviewHelpfulnessCreate s rid uid b).1 := by
  unfold reviewHelpfulnessCreate
  cases hf : s.votes.find? (pairVote rid uid) with
  | none =>
    have h0 : s.votes.countP (pairVote rid uid) = 0 :=
      List.countP_eq_zero.mpr (List.find?_eq_none.mp hf)
    dsimp only
    constructor
    · rw [signal_votes_eq]
      dsimp only
      rw [List.countP_append, h0]
      simp [pairVote]
    constructor
    · intro v hv hp
      rw [signal_votes_eq] at hv
      dsimp only at hv
      rcases List.mem_append.mp hv with hv | hv
      · exact absurd hp (List.countP_eq_zero.mp h0 v hv)
      · rcases List.mem_singleton.mp hv with rfl
        rfl
    · constructor
      · rw [signal_votes_eq]
        dsimp only
        rw [List.map_append, List.nodup_append]
        refine ⟨hwf.1, List.nodup_singleton _, ?_⟩
        intro a ha hb
        rcases List.mem_map.mp ha with ⟨v, hv, rfl⟩
        rcases List.mem_singleton.mp hb with h
        exact absurd (h ▸ hwf.2 v hv) (by simp)
      · intro v hv
        rw [signal_votes_eq] at hv
        rw [signal_nextVoteId_eq]
        dsimp only at hv ⊢
        rcases List.mem_append.mp hv with hv | hv
        · exact Nat.lt_succ_of_lt (hwf.2 v hv)
        · rcases List.mem_singleton.mp hv with rfl
          exact Nat.lt_succ_self _
  | some v0 =>
    have hp0' := List.find?_some hf
    have hp0 : pairVote rid uid v0 = true := hp0'
    have hmem0 : v0 ∈ s.votes := List.mem_of_find?_eq_some hf
    have h1 : s.votes.countP (pairVote rid uid) = 1 :=
      le_antisymm hle (List.countP_pos_iff.mpr ⟨v0, hmem0, hp0⟩)
    have hinj := List.inj_on_of_nodup_map hwf.1
    have hidpres : ∀ x : HelpfulnessVote,
        ((if x.id == v0.id then { v0 with is_helpful := b } else x).id) = x.id := by
      intro x
      by_cases hx : (x.id == v0.id) = true
      · rw [if_pos hx]
        exact (show x.id = v0.id by simpa using hx).symm
      · rw [if_neg hx]
    have hpres : ∀ x ∈ s.votes,
        pairVote rid uid (if x.id == v0.id then { v0 with is_helpful := b } else x) =
          pairVote rid uid x := by
      intro x hx
      by_cases hxe : (x.id == v0.id) = true
      · have hxid : x.id = v0.id := by simpa using hxe
        have hxv : x = v0 := hinj hx hmem0 hxid
        rw [if_pos hxe, hxv]
        rfl
      · rw [if_neg hxe]
    dsimp only
    rw [signal_false_eq]
    dsimp only
    constructor
    · rw [countP_map_mem _ _ _ hpres]
      exact h1
    constructor
    · intro v hv hp
      rcases List.mem_map.mp hv with ⟨x, hx, rfl⟩
      rw [hpres x hx] at hp
      have hxv : x = v0 := countP_eq_one_unique h1 hx hmem0 hp hp0
      rw [hxv]
      simp
    · constructor
      · have hmc : s.votes.map ((fun v => v.id) ∘
              (fun x => if x.id == v0.id then { v0 with is_helpful := b } else x)) =
            s.votes.map (fun v => v.id) :=
          List.map_congr_left (fun x _ => hidpres x)
        rw [List.map_map, hmc]
        exact hwf.1
      · intro v hv
        rcases List.mem_map.mp hv with ⟨x, hx, rfl⟩
        rw [hidpres x]
        exact hwf.2 x hx

/-! ## Claim theorems -/

/-- C1: the claim that after any completed vote operation — including an
in-place update of an existing vote — `total_votes` and `helpful_votes`
equal the live counts is violated by the code: starting from a review with no
votes, voter 2 votes helpful (counters become 1/1), then flips the same vote
to not-helpful.  The stored counters remain 1/1, yet the live vote set holds
one vote of which zero are helpful: the post-save recount runs only when a
row is created, so an in-place update drifts `helpful_votes`. -/
theorem C1_counter_drift_on_vote_update :
    (viewFindReview ((vote_helpfulness ((vote_helpfulness sampleReviewState 1 2 true).1)
          1 2 false).1) 1).map (fun r => (r.helpful_votes, r.total_votes)) = some (1, 1) ∧
    (helpfulVotesFor ((vote_helpfulness ((vote_helpfulness sampleReviewState 1 2 true).1)
          1 2 false).1).votes 1).length = 0 ∧
    (votesFor ((vote_helpfulness ((vote_helpfulness sampleReviewState 1 2 true).1)
          1 2 false).1).votes 1).length = 1 := by
  decide

/-- C2 counterexample: the dismiss handler performs no terminality check, so
dismissing a report that is already resolved does not fail — it succeeds,
contradicting the claim that dismiss fails on every terminal report. -/
theorem C2_dismiss_succeeds_on_resolved_report :
    sampleResolvedReport.is_resolved = true ∧
    (dismissReport sampleReportState 1 9 100).2 = .ok () := by
  decide

/-- C2 (amended): dismiss never fails on an existing report — even a report
already resolved or dismissed is dismissed again, overwriting the note, admin
and timestamp; in particular a successful dismiss of an open report sets the
fixed system note, the acting admin and the resolution timestamp together. -/
theorem C2_dismiss_always_stamps :
    ∀ (s : ReviewsState) (pid adminId now : Nat) (rep : ReviewReport),
      findReport s pid = some rep →
      ∃ s', dismissReport s pid adminId now = (s', .ok ()) ∧
        findReport s' pid = some
          { rep with
            is_resolved := true
            admin_action := dismissNote
            resolved_by := some adminId
            resolved_at := some now } := by
  intro s pid adminId now rep h
  unfold dismissReport
  rw [h]
  exact ⟨_, rfl, findReport_set s pid rep _ h rfl⟩

/-- Witness for C2: dismissing the concrete open report 2 succeeds and stamps
note, admin and timestamp together. -/
theorem C2_dismiss_always_stamps_witness :
    ∃ s', dismissReport sampleReportState 2 9 100 = (s', .ok ()) ∧
      findReport s' 2 = some
        { sampleOpenReport with
          is_resolved := true
          admin_action := dismissNote
          resolved_by := some 9
          resolved_at := some 100 } :=
  C2_dismiss_always_stamps sampleReportState 2 9 100 sampleOpenReport (by decide)

/-- C6: a user can neither vote on nor report their own review: both handlers
fail with the PermissionError kind and leave the store untouched, for every
vote value and every report content. -/
theorem C6_self_vote_and_report_rejected :
    ∀ (s : ReviewsState) (rid uid : Nat) (b : Bool) (reason description : String) (r : Review),
      viewFindReview s rid = some r → r.tenant = uid →
      vote_helpfulness s rid uid b = (s, .error .PermissionError) ∧
      reportReview s rid uid reason description = (s, .error .PermissionError) := by
  intro s rid uid b reason description r h hten
  have hbeq : (r.tenant == uid) = true := by simp [hten]
  constructor
  · unfold vote_helpfulness
    rw [h]
    simp [hbeq]
  · unfold reportReview
    rw [h]
    simp [hbeq]

/-- Witness for C6: tenant 1 voting on / reporting their own review 1. -/
theorem C6_self_witness :
    vote_helpfulness sampleReviewState 1 1 true = (sampleReviewState, .error .PermissionError) ∧
    reportReview sampleReviewState 1 1 "spam" "" = (sampleReviewState, .error .PermissionError) :=
  C6_self_vote_and_report_rejected sampleReviewState 1 1 true "spam" "" sampleReview
    (by decide) (by decide)

/-- C5: resolving a report that is already in a terminal state fails with the
ConflictError kind and returns the store unchanged (so `resolved_at` and
`admin_action` keep their first-resolution values); resolving an open report
with a whitespace-empty action note fails with the ValidationError kind and
changes nothing; a successful resolve marks the report resolved and records
the admin, the timestamp and the note together. -/
theorem C5_resolve_contract :
    (∀ (s : ReviewsState) (pid adminId : Nat) (note : String) (now : Nat) (rep : ReviewReport),
      findReport s pid = some rep → rep.is_resolved = true →
      resolveReport s pid adminId note now = (s, .error .ConflictError)) ∧
    (∀ (s : ReviewsState) (pid adminId : Nat) (note : String) (now : Nat) (rep : ReviewReport),
      findReport s pid = some rep → rep.is_resolved = false → pyStrip note = "" →
      resolveReport s pid adminId note now = (s, .error .ValidationError)) ∧
    (∀ (s : ReviewsState) (pid adminId : Nat) (note : String) (now : Nat) (rep : ReviewReport),
      findReport s pid = some rep → rep.is_resolved = false → pyStrip note ≠ "" →
      ∃ s', resolveReport s pid adminId note now = (s', .ok ()) ∧
        findReport s' pid = some
          { rep with
            is_resolved := true
            admin_action := note
            resolved_by := some adminId
            resolved_at := some now }) := by
  refine ⟨?_, ?_, ?_⟩
  · intro s pid adminId note now rep h hres
    unfold resolveReport
    rw [h]
    simp [hres]
  · intro s pid adminId note now rep h hres htrim
    unfold resolveReport
    rw [h]
    simp [hres, htrim]
  · intro s pid adminId note now rep h hres htrim
    unfold resolveReport
    rw [h]
    have h1 : ¬(rep.is_resolved = true) := by simp [hres]
    have h2 : ¬((pyStrip note == "") = true) := by simp [htrim]
    dsimp only
    rw [if_neg h1, if_neg h2]
    exact ⟨_, rfl, findReport_set s pid rep _ h rfl⟩

/-- Witness for C5: re-resolving the resolved report 1 conflicts and changes
nothing; resolving the open report 2 with a blank note is rejected; resolving
it with a real note stamps all resolution fields together. -/
theorem C5_resolve_witness :
    resolveReport sampleReportState 1 9 "took action" 100 =
      (sampleReportState, .error .ConflictError) ∧
    resolveReport sampleReportState 2 9 "   " 100 =
      (sampleReportState, .error .ValidationError) ∧
    ∃ s', resolveReport sampleReportState 2 9 "Hid the review" 100 = (s', .ok ()) ∧
      findReport s' 2 = some
        { sampleOpenReport with
          is_resolved := true
          admin_action := "Hid the review"
          resolved_by := some 9
          resolved_at := some 100 } :=
  ⟨C5_resolve_contract.1 sampleReportState 1 9 "took action" 100 sampleResolvedReport
      (by decide) (by decide),
   C5_resolve_contract.2.1 sampleReportState 2 9 "   " 100 sampleOpenReport
      (by decide) (by decide) (by decide),
   C5_resolve_contract.2.2 sampleReportState 2 9 "Hid the review" 100 sampleOpenReport
      (by decide) (by decide) (by decide)⟩

/-- C3 counterexample: supplying only latitude and longitude (no radius) makes
the serializer invalid, but the search operation does not fail and a result
set is produced — the view swallows the invalid serializer and executes the
unfiltered base query, returning both stored rentals. -/
theorem C3_incomplete_geo_still_produces_results :
    runSearchValidation geoSubsetParams = .error .ValidationError ∧
    getQueryset sampleStore geoSubsetParams = some [sampleRental2, sampleRental] := by
  decide

/-- C3 (amended): when a proper non-empty subset of the latitude / longitude /
radius triple is supplied with truthy (nonzero) values, the search serializer
does fail with the ValidationError kind, but the search operation itself does
not fail and does query the listing store: it ignores every filter and
returns the full status-filtered listing in default order. -/
theorem C3_geo_subset_error_swallowed :
    ∀ (store : List Rental) (p : SearchParams),
      (truthyQ p.latitude || truthyQ p.longitude || truthyQ p.radius) = true →
      (truthyQ p.latitude && truthyQ p.longitude && truthyQ p.radius) = false →
      runSearchValidation p = .error .ValidationError ∧
      getQueryset store p = some (defaultListing store) := by
  intro store p hany hall
  have hv : searchValidateOk p = false := by
    unfold searchValidateOk
    rw [hany, hall]
    simp
  have hiv : searchIsValid p = false := by
    unfold searchIsValid
    rw [hv, Bool.and_false]
  constructor
  · unfold runSearchValidation
    rw [hiv]
    simp
  · exact getQueryset_invalid store p hiv

/-- Witness for C3: the latitude+longitude-only request rejected by the
serializer yet answered with the default listing. -/
theorem C3_geo_subset_witness :
    runSearchValidation geoSubsetParams = .error .ValidationError ∧
    getQueryset sampleStore geoSubsetParams = some (defaultListing sampleStore) :=
  C3_geo_subset_error_swallowed sampleStore geoSubsetParams (by decide) (by decide)

/-- C8 counterexample: latitude = 0 with longitude and radius supplied — the
input the claim says divides by zero — is rejected by validation (Python
truthiness makes `all([0.0, ...])` false), so the searched store is answered
with the default listing and no division is attempted. -/
theorem C8_zero_latitude_is_rejected_not_a_crash :
    runSearchValidation zeroLatParams = .error .ValidationError ∧
    getQueryset sampleStore zeroLatParams = some (defaultListing sampleStore) := by
  decide

/-- Search request carrying a denormal-small nonzero latitude: 2^-1070 is an
exactly representable IEEE subnormal double inside the accepted [-90, 90]
range (a request literal such as `1e-322` denotes a nearby subnormal
double), together with an ordinary longitude and radius. -/
def tinyLatParams : SearchParams :=
  { latitude := some (mkRat 1 (2 ^ 1070)), longitude := some 10, radius := some 5 }

set_option maxRecDepth 10000 in
/-- C8 (amended): the geo computation does make the search operation
non-total, but the failing input is not latitude = 0, which truthiness
rejects during validation: a denormal-small nonzero latitude passes every
field range check, is truthy, and completes the geo triple, yet
`latitude / 90` underflows to 0.0 in IEEE doubles, so
`radius / (69 * abs(latitude / 90))` raises an uncaught `ZeroDivisionError`
(the explicit `none` outcome of the model). -/
theorem C8_denormal_latitude_divides_by_zero :
    searchIsValid tinyLatParams = true ∧
    getQueryset sampleStore tinyLatParams = none := by
  decide

/-- C9: every search request whose parameter set fails validation — an
inverted price range, an incomplete geo triple, an out-of-range field — is
answered without an error: the handler silently skips the whole filter and
ordering block and returns the full set of rentals with status available or
rented, newest first. -/
theorem C9_invalid_params_silently_ignored :
    ∀ (store : List Rental) (p : SearchParams),
      searchIsValid p = false →
      getQueryset store p = some (defaultListing store) :=
  fun store p h => getQueryset_invalid store p h

/-- Witness for C9: `min_price = 7 > 3 = max_price` is invalid, yet the query
returns the default listing of the concrete store. -/
theorem C9_invalid_params_witness :
    getQueryset sampleStore badPriceParams = some (defaultListing sampleStore) :=
  C9_invalid_params_silently_ignored sampleStore badPriceParams (by decide)

/-- C4: for a voter distinct from the review's author, two sequential vote
calls leave exactly one vote row for the (review, voter) pair, carrying the
second call's `is_helpful` value — the second call updates the row in place
instead of inserting a duplicate.  The store is assumed well-formed (distinct
vote primary keys, at most one pre-existing row for the pair), as the
database's unique constraints guarantee. -/
theorem C4_double_vote_single_record :
    ∀ (s : ReviewsState) (rid vid : Nat) (b1 b2 : Bool) (r : Review),
      votesWF s →
      s.votes.countP (pairVote rid vid) ≤ 1 →
      viewFindReview s rid = some r →
      r.tenant ≠ vid →
      ∃ s1 res1 s2 res2,
        vote_helpfulness s rid vid b1 = (s1, .ok res1) ∧
        vote_helpfulness s1 rid vid b2 = (s2, .ok res2) ∧
        s2.votes.countP (pairVote rid vid) = 1 ∧
        (∀ v ∈ s2.votes, pairVote rid vid v = true → v.is_helpful = b2) := by
  intro s rid vid b1 b2 r hwf hle h hten
  have hno : ¬((r.tenant == vid) = true) := by simp [hten]
  have hc1 := create_spec s rid vid b1 hwf hle
  have e1 : vote_helpfulness s rid vid b1 =
      ((reviewHelpfulnessCreate s rid vid b1).1,
        .ok { is_helpful := (reviewHelpfulnessCreate s rid vid b1).2.is_helpful,
              helpful_votes := r.helpful_votes, total_votes := r.total_votes }) := by
    unfold vote_helpfulness
    rw [h]
    dsimp only
    rw [if_neg hno]
  obtain ⟨r1, hfind1, hten1, _, _⟩ := create_preserves_review s rid vid b1 rid r h
  have hno1 : ¬((r1.tenant == vid) = true) := by simp [hten1, hten]
  have hc2 := create_spec (reviewHelpfulnessCreate s rid vid b1).1 rid vid b2
    hc1.2.2 (le_of_eq hc1.1)
  have e2 : vote_helpfulness (reviewHelpfulnessCreate s rid vid b1).1 rid vid b2 =
      ((reviewHelpfulnessCreate (reviewHelpfulnessCreate s rid vid b1).1 rid vid b2).1,
        .ok { is_helpful :=
                (reviewHelpfulnessCreate (reviewHelpfulnessCreate s rid vid b1).1 rid vid b2).2.is_helpful,
              helpful_votes := r1.helpful_votes, total_votes := r1.total_votes }) := by
    unfold vote_helpfulness
    rw [hfind1]
    dsimp only
    rw [if_neg hno1]
  exact ⟨_, _, _, _, e1, e2, hc2.1, hc2.2.1⟩

/-- Witness for C4: voter 2 votes helpful then not-helpful on review 1; one
row remains and it reads not-helpful. -/
theorem C4_double_vote_witness :
    ∃ s1 res1 s2 res2,
      vote_helpfulness sampleReviewState 1 2 true = (s1, .ok res1) ∧
      vote_helpfulness s1 1 2 false = (s2, .ok res2) ∧
      s2.votes.countP (pairVote 1 2) = 1 ∧
      (∀ v ∈ s2.votes, pairVote 1 2 v = true → v.is_helpful = false) :=
  C4_double_vote_single_record sampleReviewState 1 2 true false sampleReview
    (by decide) (by decide) (by decide) (by decide)

/-- C7: retrieving a rental's detail view increments its stored view counter
by exactly one — unless the requester is the rental's own landlord, in which
case the store is unchanged; in either case no other column of any rental is
touched. -/
theorem C7_retrieve_increments_views :
    ∀ (store : List Rental) (requester : Option Nat) (rid : Nat) (rental : Rental),
      findRental store rid = some rental →
      (requester = some rental.landlord →
        rentalRetrieve store requester rid = (store, .ok rental)) ∧
      (requester ≠ some rental.landlord →
        ∃ store', rentalRetrieve store requester rid = (store', .ok rental) ∧
          findRental store' rid =
            some { rental with views_count := rental.views_count + 1 } ∧
          ∀ x ∈ store, x.id ≠ rental.id → x ∈ store') := by
  intro store requester rid rental h
  constructor
  · intro hreq
    subst hreq
    unfold rentalRetrieve
    rw [h]
    simp [requesterIsLandlord]
  · intro hreq
    have hcond : requesterIsLandlord requester rental.landlord = false := by
      cases requester with
      | none => rfl
      | some u => exact beq_eq_false_iff_ne.mpr fun hc => hreq (congrArg some hc)
    have hcond' : ¬(requesterIsLandlord requester rental.landlord = true) := by
      rw [hcond]
      simp
    unfold rentalRetrieve
    rw [h]
    dsimp only
    rw [if_neg hcond']
    refine ⟨_, rfl, ?_, ?_⟩
    · have hq : ∀ x : Rental, rentalVisible
          (if x.id == rental.id then { x with views_count := x.views_count + 1 } else x) =
            rentalVisible x := by
        intro x
        by_cases hx : (x.id == rental.id) = true
        · rw [if_pos hx]
          rfl
        · rw [if_neg hx]
      have hp : ∀ x : Rental,
          ((if x.id == rental.id then { x with views_count := x.views_count + 1 } else x).id
              == rid) = (x.id == rid) := by
        intro x
        by_cases hx : (x.id == rental.id) = true
        · rw [if_pos hx]
        · rw [if_neg hx]
      unfold findRental at h ⊢
      unfold increment_views
      rw [filter_map_pres _ _ hq, find?_map_pres _ _ hp, h]
      simp
    · intro x hx hne
      unfold increment_views
      refine List.mem_map.mpr ⟨x, hx, ?_⟩
      rw [if_neg (show ¬((x.id == rental.id) = true) by simp [hne])]

/-- Witness for C7: the landlord's own view of rental 1 leaves the store
alone; an anonymous view bumps the counter from 0 to 1 and leaves rental 2
in place. -/
theorem C7_retrieve_witness :
    rentalRetrieve sampleStore (some 7) 1 = (sampleStore, .ok sampleRental) ∧
    ∃ store', rentalRetrieve sampleStore none 1 = (store', .ok sampleRental) ∧
      findRental store' 1 =
        some { sampleRental with views_count := sampleRental.views_count + 1 } ∧
      ∀ x ∈ sampleStore, x.id ≠ sampleRental.id → x ∈ store' :=
  ⟨(C7_retrieve_increments_views sampleStore (some 7) 1 sampleRental (by decide)).1 (by decide),
   (C7_retrieve_increments_views sampleStore none 1 sampleRental (by decide)).2 (by decide)⟩

/-- C10: the counters returned by a successful vote response are the review's
values fetched before the vote was applied, and on the concrete store they
differ from the counters stored after the operation: a first helpful vote
answers 0/0 while the store already holds 1/1. -/
theorem C10_response_counters_stale :
    (∀ (s : ReviewsState) (rid uid : Nat) (b : Bool) (s' : ReviewsState) (res : VoteResult),
      vote_helpfulness s rid uid b = (s', .ok res) →
      ∃ r, viewFindReview s rid = some r ∧
        res.helpful_votes = r.helpful_votes ∧ res.total_votes = r.total_votes) ∧
    ((vote_helpfulness sampleReviewState 1 2 true).2 =
        .ok { is_helpful := true, helpful_votes := 0, total_votes := 0 } ∧
      (viewFindReview (vote_helpfulness sampleReviewState 1 2 true).1 1).map
          (fun r => (r.helpful_votes, r.total_votes)) = some (1, 1)) := by
  constructor
  · intro s rid uid b s' res heq
    unfold vote_helpfulness at heq
    cases hfind : viewFindReview s rid with
    | none =>
      rw [hfind] at heq
      exact absurd heq (by simp)
    | some r =>
      rw [hfind] at heq
      dsimp only at heq
      by_cases hten : (r.tenant == uid) = true
      · rw [if_pos hten] at heq
        exact absurd heq (by simp)
      · rw [if_neg hten] at heq
        injection heq with hA hB
        injection hB with hC
        refine ⟨r, rfl, ?_, ?_⟩
        · rw [← hC]
        · rw [← hC]
  · exact ⟨by decide, by decide⟩

/-- Witness for C10: the universal half applied to the concrete first vote
shows the response echoes the pre-vote counters 0/0. -/
theorem C10_response_witness :
    ∃ r, viewFindReview sampleReviewState 1 = some r ∧
      ({ is_helpful := true, helpful_votes := 0, total_votes := 0 } : VoteResult).helpful_votes
          = r.helpful_votes ∧
      ({ is_helpful := true, helpful_votes := 0, total_votes := 0 } : VoteResult).total_votes
          = r.total_votes :=
  C10_response_counters_stale.1 sampleReviewState 1 2 true
    (vote_helpfulness sampleReviewState 1 2 true).1
    { is_helpful := true, helpful_votes := 0, total_votes := 0 }
    (by decide)
